import Mathlib

/-!
Verification of the camera-feed query core: the Feed Catalog data model,
the Filter Engine operations of `src/data_loader.py`, the MCP tool layer of
`src/mcp_tools.py` (feed-id lookup, multi-filter search), and the Intent
Resolver priority step `QueryAgent._execute_tools` of `src/query_agent.py`,
shallowly embedded as executable Lean definitions.
-/

namespace CameraFeeds

/-- Embeds one row of the camera-feed catalog (`Table_feeds_v2.csv`), with the
columns the filter engine reads: FEED_ID, THEATER, CODEC, RES_W, RES_H,
LAT_MS, MODL_TAG, ENCR, CIV_OK.  Resolution and latency are non-negative
integers per the data contract. -/
structure Feed where
  feed_id : String
  theater : String
  codec : String
  res_w : Nat
  res_h : Nat
  lat_ms : Nat
  modl_tag : String
  encr : Bool
  civ_ok : Bool
  deriving DecidableEq, Repr

/-- Python truthiness of an optional integer argument (`if min_width:` in
`DataLoader.get_feeds_by_resolution` and `get_feeds_by_latency`): `None` and
`0` are falsy, every other integer is truthy. -/
def truthyNat : Option Nat → Bool
  | none => false
  | some n => n != 0

/-- Embeds `DataLoader.get_feeds_by_theater`: keep the rows whose THEATER
column equals the upper-cased argument. -/
def get_feeds_by_theater (catalog : List Feed) (theater : String) : List Feed :=
  catalog.filter (fun f => f.theater == theater.toUpper)

/-- Embeds `DataLoader.get_feeds_by_codec`: keep the rows whose CODEC column
equals the upper-cased argument. -/
def get_feeds_by_codec (catalog : List Feed) (codec : String) : List Feed :=
  catalog.filter (fun f => f.codec == codec.toUpper)

/-- Embeds `DataLoader.get_feeds_by_resolution`.  Each of the four bounds is
applied only when the Python argument is truthy (`if min_width:` etc.), so a
bound supplied as `0` behaves like an absent bound. -/
def get_feeds_by_resolution (catalog : List Feed) (min_width min_height
    max_width max_height : Option Nat) : List Feed :=
  let feeds := catalog
  let feeds := if truthyNat min_width then
    feeds.filter (fun f => min_width.getD 0 ≤ f.res_w) else feeds
  let feeds := if truthyNat min_height then
    feeds.filter (fun f => min_height.getD 0 ≤ f.res_h) else feeds
  let feeds := if truthyNat max_width then
    feeds.filter (fun f => f.res_w ≤ max_width.getD 0) else feeds
  let feeds := if truthyNat max_height then
    feeds.filter (fun f => f.res_h ≤ max_height.getD 0) else feeds
  feeds

/-- Embeds `DataLoader.get_feeds_by_latency` (max bound applied first, then
min, each guarded by Python truthiness of the argument). -/
def get_feeds_by_latency (catalog : List Feed) (max_latency min_latency :
    Option Nat) : List Feed :=
  let feeds := catalog
  let feeds := if truthyNat max_latency then
    feeds.filter (fun f => f.lat_ms ≤ max_latency.getD 0) else feeds
  let feeds := if truthyNat min_latency then
    feeds.filter (fun f => min_latency.getD 0 ≤ f.lat_ms) else feeds
  feeds

/-- Embeds the per-row quality score of `DataLoader.get_high_quality_feeds`:
`high_res.astype(int) * 3 + modern_codec.astype(int) * 2 +
low_latency.astype(int) * 1` where `high_res` is RES_W ≥ 1920 and
RES_H ≥ 1080, `modern_codec` is CODEC ∈ {H265, AV1, VP9}, and `low_latency`
is LAT_MS ≤ 500. -/
def qualityScore (f : Feed) : Nat :=
  (if 1920 ≤ f.res_w ∧ 1080 ≤ f.res_h then 1 else 0) * 3 +
  (if f.codec ∈ ["H265", "AV1", "VP9"] then 1 else 0) * 2 +
  (if f.lat_ms ≤ 500 then 1 else 0) * 1

/-- Embeds a catalog row together with the `quality_score` column that
`get_high_quality_feeds` adds to (a copy of) the dataframe. -/
structure ScoredFeed where
  feed : Feed
  quality_score : Nat
  deriving DecidableEq, Repr

/-- Embeds the column assignment `feeds['quality_score'] = ...` of
`DataLoader.get_high_quality_feeds`: every row is annotated with its score. -/
def annotateQuality (catalog : List Feed) : List ScoredFeed :=
  catalog.map (fun f => { feed := f, quality_score := qualityScore f })

/-- Ascending insertion step of a stable sort on `quality_score`: an element
is placed before the first strictly-or-equally larger key, after equal keys
already present, so earlier rows stay before equal later rows. -/
def insertAscByScore (x : ScoredFeed) : List ScoredFeed → List ScoredFeed
  | [] => [x]
  | y :: ys =>
      if x.quality_score ≤ y.quality_score then x :: y :: ys
      else y :: insertAscByScore x ys

/-- Stable ascending insertion sort on `quality_score`. -/
def sortAscByScore : List ScoredFeed → List ScoredFeed
  | [] => []
  | x :: xs => insertAscByScore x (sortAscByScore xs)

/-- Embeds `DataLoader.get_high_quality_feeds`: annotate a copy of the
catalog with `quality_score`, then
`sort_values('quality_score', ascending=False)`.  pandas implements the
descending sort in `nargsort` by reversing both the values and the index
array, running an ascending argsort on the reversed values, and reversing
the resulting indexer again (the pandas GH 6399 scheme, which makes a
descending sort keep tied rows in their original order whenever the
underlying argsort is stable, as numpy's default argsort is on the array
sizes exercised here).  The embedding therefore reverses the annotated
rows, stable-sorts them ascending by score, and reverses the result. -/
def get_high_quality_feeds (catalog : List Feed) : List ScoredFeed :=
  (sortAscByScore (annotateQuality catalog).reverse).reverse

/-- Embeds `DataLoader.get_feeds_by_model`: exact, case-sensitive match on
the MODL_TAG column. -/
def get_feeds_by_model (catalog : List Feed) (model_tag : String) : List Feed :=
  catalog.filter (fun f => f.modl_tag == model_tag)

/-- Embeds `DataLoader.get_encrypted_feeds`: exact boolean match on ENCR. -/
def get_encrypted_feeds (catalog : List Feed) (encrypted : Bool) : List Feed :=
  catalog.filter (fun f => f.encr == encrypted)

/-- Embeds `DataLoader.get_civilian_safe_feeds`: exact boolean match on
CIV_OK. -/
def get_civilian_safe_feeds (catalog : List Feed) (safe : Bool) : List Feed :=
  catalog.filter (fun f => f.civ_ok == safe)

/-- Embeds the dictionary returned by `MCPTools.get_feed_by_id`.  The Python
not-found branch returns `{"error": ..., "available_feeds": ...}` with no
`"found"` key, so `result.get("found")` is falsy there; the found branch
returns `{"feed": ..., "found": True}`.  The `found` field records that
truthiness, and the fields absent from each branch take the falsy defaults
`none` / `[]`. -/
structure FeedByIdResult where
  found : Bool
  feed : Option Feed
  error : Option String
  available_feeds : List String
  deriving DecidableEq, Repr

/-- Embeds `MCPTools.get_feed_by_id`: select the rows whose FEED_ID equals
the argument; if none match, return the not-found dictionary whose
`available_feeds` hint is `feeds['FEED_ID'].tolist()[:10]` (the first ten
feed ids of the catalog); otherwise return the first matching row
(`feed.iloc[0]`) with `found=True`. -/
def get_feed_by_id (catalog : List Feed) (fid : String) : FeedByIdResult :=
  match catalog.filter (fun f => f.feed_id == fid) with
  | [] =>
      { found := false, feed := none,
        error := some ("Feed ID " ++ fid ++ " not found"),
        available_feeds := (catalog.map (fun f => f.feed_id)).take 10 }
  | f :: _ =>
      { found := true, feed := some f, error := none, available_feeds := [] }

/-- Embeds a Python value supplied in the `**filters` keyword dictionary of
`MCPTools.search_feeds`: a string (theater, codec), an integer (min_width,
min_height, max_latency) or a boolean (encrypted, civilian_safe). -/
inductive FilterValue where
  | str (s : String)
  | nat (n : Nat)
  | bool (b : Bool)
  deriving DecidableEq, Repr

/-- Embeds the result dictionary of `MCPTools.search_feeds`: the filtered
rows, the echo of the filters actually applied, and the row count. -/
structure SearchResult where
  feeds : List Feed
  applied_filters : List (String × FilterValue)
  count : Nat
  deriving DecidableEq, Repr

/-- Embeds one string-valued block of `MCPTools.search_feeds`, for instance
`if 'theater' in filters: feeds = feeds[...]; applied_filters['theater'] =
filters['theater']`.  A non-string value for the key would raise in Python
(`.upper()` on a non-string); the embedding surfaces that as `Except.error`. -/
def applyStrFilter (filters : List (String × FilterValue)) (key : String)
    (pred : String → Feed → Bool) (st : List Feed × List (String × FilterValue)) :
    Except String (List Feed × List (String × FilterValue)) :=
  match filters.lookup key with
  | none => Except.ok st
  | some (FilterValue.str s) =>
      Except.ok (st.1.filter (pred s), st.2 ++ [(key, FilterValue.str s)])
  | some _ => Except.error ("TypeError: " ++ key)

/-- Embeds one integer-valued block of `MCPTools.search_feeds` (min_width,
min_height, max_latency); a non-integer value would make the pandas
comparison raise, surfaced as `Except.error`. -/
def applyNatFilter (filters : List (String × FilterValue)) (key : String)
    (pred : Nat → Feed → Bool) (st : List Feed × List (String × FilterValue)) :
    Except String (List Feed × List (String × FilterValue)) :=
  match filters.lookup key with
  | none => Except.ok st
  | some (FilterValue.nat n) =>
      Except.ok (st.1.filter (pred n), st.2 ++ [(key, FilterValue.nat n)])
  | some _ => Except.error ("TypeError: " ++ key)

/-- Embeds one boolean-valued block of `MCPTools.search_feeds` (encrypted,
civilian_safe). -/
def applyBoolFilter (filters : List (String × FilterValue)) (key : String)
    (pred : Bool → Feed → Bool) (st : List Feed × List (String × FilterValue)) :
    Except String (List Feed × List (String × FilterValue)) :=
  match filters.lookup key with
  | none => Except.ok st
  | some (FilterValue.bool b) =>
      Except.ok (st.1.filter (pred b), st.2 ++ [(key, FilterValue.bool b)])
  | some _ => Except.error ("TypeError: " ++ key)

/-- Embeds `MCPTools.search_feeds`: starting from the whole catalog and an
empty `applied_filters`, apply the seven supported keys in source order —
theater (upper-cased match), codec (upper-cased match), min_width,
min_height, max_latency, encrypted, civilian_safe — each only when present
in the keyword dictionary; keys outside these seven are never consulted. -/
def search_feeds (catalog : List Feed) (filters : List (String × FilterValue)) :
    Except String SearchResult := do
  let st ← applyStrFilter filters "theater"
    (fun s f => f.theater == s.toUpper) (catalog, [])
  let st ← applyStrFilter filters "codec" (fun s f => f.codec == s.toUpper) st
  let st ← applyNatFilter filters "min_width" (fun n f => n ≤ f.res_w) st
  let st ← applyNatFilter filters "min_height" (fun n f => n ≤ f.res_h) st
  let st ← applyNatFilter filters "max_latency" (fun n f => f.lat_ms ≤ n) st
  let st ← applyBoolFilter filters "encrypted" (fun b f => f.encr == b) st
  let st ← applyBoolFilter filters "civilian_safe" (fun b f => f.civ_ok == b) st
  Except.ok { feeds := st.1, applied_filters := st.2, count := st.1.length }

/-- Record list of a `search_feeds` result (`[]` on the raising branch). -/
def resultFeeds : Except String SearchResult → List Feed
  | Except.ok r => r.feeds
  | Except.error _ => []

/-- Applied-filter echo of a `search_feeds` result (`[]` on the raising
branch). -/
def resultApplied : Except String SearchResult → List (String × FilterValue)
  | Except.ok r => r.applied_filters
  | Except.error _ => []

/-- The seven filter names `MCPTools.search_feeds` consults. -/
def supportedKeys : List String :=
  ["theater", "codec", "min_width", "min_height", "max_latency",
   "encrypted", "civilian_safe"]

/-- Embeds the value a string-typed field of the intent dictionary can take:
the key is missing (`absent`), present with Python `None` (`null`), or
present with a string.  `dict.get(key)` yields `None` for both `absent` and
`null`; `dict.get(key, default)` yields the default only for `absent`. -/
inductive PyStrField where
  | absent
  | null
  | str (s : String)
  deriving DecidableEq, Repr

/-- Python truthiness of `intent.get(key)` for a string field: `None` (key
absent or null) and the empty string are falsy. -/
def truthyStr : PyStrField → Bool
  | PyStrField.str s => s != ""
  | _ => false

/-- String payload of a truthy field (used only after `truthyStr`). -/
def strVal : PyStrField → String
  | PyStrField.str s => s
  | _ => ""

/-- Embeds `intent.get(key, default)`: the default replaces only a missing
key, not a key stored as `None`. -/
def pyGetD (v : PyStrField) (d : String) : PyStrField :=
  match v with
  | PyStrField.absent => PyStrField.str d
  | x => x

/-- Embeds the intent dictionary consumed by `QueryAgent._execute_tools`:
the `intent`, `theater`, `codec`, `quality` and `error` keys it reads.  The
LLM prompt and the fallback parser both produce `null` (Python `None`) for
unspecified hints. -/
structure Intent where
  intent : PyStrField
  theater : PyStrField
  codec : PyStrField
  quality : PyStrField
  error : PyStrField
  deriving DecidableEq, Repr

/-- Embeds one entry appended to `tool_calls` in `_execute_tools`, a tool
name with its argument. -/
inductive ToolCall where
  | filter_by_theater (theater : String)
  | filter_by_codec (codec : String)
  | get_high_quality_feeds
  | get_all_camera_feeds
  deriving DecidableEq, Repr

/-- Embeds the `data_results` outcome of `_execute_tools`: the short-circuit
branch for `intent == "error"` (which stores `intent.get("error", "Unknown
error")` and never reaches the tool-calling code), the `except` branch when
evaluating the intent raised (which stores the exception text), or the list
of tool calls actually invoked against the catalog. -/
inductive ExecOutcome where
  | shortCircuit (msg : PyStrField)
  | toolError (msg : String)
  | invoked (calls : List ToolCall)
  deriving DecidableEq, Repr

/-- Substring test `needle in haystack` of Python. -/
def strContainsSub (needle haystack : String) : Bool :=
  decide (needle.toList <:+: haystack.toList)

/-- Embeds the quality test of `_execute_tools`:
`intent.get("quality") == "high" or "best" in
intent.get("quality", "").lower()`.  The first disjunct short-circuits on
the exact string `"high"`; otherwise the second disjunct is evaluated, and
when the `quality` key is present but `None`, `intent.get("quality", "")`
returns `None` and `None.lower()` raises `AttributeError`, surfaced as
`Except.error`. -/
def qualityCond (q : PyStrField) : Except String Bool :=
  if q = PyStrField.str "high" then Except.ok true
  else
    match q with
    | PyStrField.null => Except.error "AttributeError"
    | PyStrField.absent => Except.ok (strContainsSub "best" "")
    | PyStrField.str s => Except.ok (strContainsSub "best" s.toLower)

/-- Calls selected by an outcome (empty for both error-shaped outcomes). -/
def callsOf : ExecOutcome → List ToolCall
  | ExecOutcome.invoked cs => cs
  | _ => []

/-- Embeds `QueryAgent._execute_tools`, the Intent Resolver decision step:
short-circuit when `intent.get("intent") == "error"`; otherwise, inside the
`try` block, when the operation kind is one of filter/search/analyze pick
exactly one tool by the fixed priority theater > codec > quality > full
listing (a raising quality test lands in the `except` branch); for any other
operation kind `tool_calls` stays empty and no tool is invoked. -/
def executeTools (i : Intent) : ExecOutcome :=
  if i.intent = PyStrField.str "error" then
    ExecOutcome.shortCircuit (pyGetD i.error "Unknown error")
  else if i.intent = PyStrField.str "filter" ∨ i.intent = PyStrField.str "search"
      ∨ i.intent = PyStrField.str "analyze" then
    if truthyStr i.theater then
      ExecOutcome.invoked [ToolCall.filter_by_theater (strVal i.theater)]
    else if truthyStr i.codec then
      ExecOutcome.invoked [ToolCall.filter_by_codec (strVal i.codec)]
    else
      match qualityCond i.quality with
      | Except.error m => ExecOutcome.toolError m
      | Except.ok true => ExecOutcome.invoked [ToolCall.get_high_quality_feeds]
      | Except.ok false => ExecOutcome.invoked [ToolCall.get_all_camera_feeds]
  else
    ExecOutcome.invoked []

/-- Distinct values of a list in first-occurrence order, matching the
insertion order of the pandas hashtable behind `value_counts` and
`drop_duplicates`. -/
def distinctFirst {α : Type} [DecidableEq α] (vals : List α) : List α :=
  vals.foldl (fun acc v => if v ∈ acc then acc else acc ++ [v]) []

/-- Descending stable insertion step on occurrence counts: an entry passes
only strictly smaller counts, so entries with equal counts keep their
relative order. -/
def insertDescByCount (x : String × Nat) :
    List (String × Nat) → List (String × Nat)
  | [] => [x]
  | y :: ys => if y.2 < x.2 then x :: y :: ys else y :: insertDescByCount x ys

/-- Descending stable insertion sort on occurrence counts. -/
def sortDescByCount : List (String × Nat) → List (String × Nat)
  | [] => []
  | x :: xs => insertDescByCount x (sortDescByCount xs)

/-- Embeds `Series.value_counts().to_dict()`: the occurrence count of each
distinct value, listed in descending count order (`value_counts` sorts by
count; the Python dict then preserves that insertion order). -/
def value_counts (vals : List String) : List (String × Nat) :=
  sortDescByCount ((distinctFirst vals).map (fun v => (v, vals.count v)))

/-- Embeds the dictionary returned by `MCPTools.analyze_theater_distribution`
and `analyze_codec_distribution`: the per-category counts, the total record
count, and the list of observed category values. -/
structure DistributionResult where
  distribution : List (String × Nat)
  total_feeds : Nat
  categories : List String
  deriving DecidableEq, Repr

/-- Embeds `MCPTools.analyze_theater_distribution`: `value_counts` of the
THEATER column, the catalog length, and the keys of the counts dict. -/
def analyze_theater_distribution (catalog : List Feed) : DistributionResult :=
  let theater_counts := value_counts (catalog.map (fun f => f.theater))
  { distribution := theater_counts, total_feeds := catalog.length,
    categories := theater_counts.map Prod.fst }

/-- Embeds `MCPTools.analyze_codec_distribution`: `value_counts` of the
CODEC column, the catalog length, and the keys of the counts dict. -/
def analyze_codec_distribution (catalog : List Feed) : DistributionResult :=
  let codec_counts := value_counts (catalog.map (fun f => f.codec))
  { distribution := codec_counts, total_feeds := catalog.length,
    categories := codec_counts.map Prod.fst }

/-- Embeds the dictionary returned by
`MCPTools.analyze_resolution_distribution`: the five fixed bucket counts,
the total record count, and the number of distinct (RES_W, RES_H) pairs. -/
structure ResolutionDistributionResult where
  resolution_distribution : List (String × Nat)
  total_feeds : Nat
  unique_resolutions : Nat
  deriving DecidableEq, Repr

/-- Embeds `MCPTools.analyze_resolution_distribution`: each of the five
fixed buckets counts the rows whose RES_W and RES_H match it exactly
(`condition.sum()` over the boolean mask), and `unique_resolutions` is
`len(feeds[['RES_W', 'RES_H']].drop_duplicates())`. -/
def analyze_resolution_distribution (catalog : List Feed) :
    ResolutionDistributionResult :=
  { resolution_distribution :=
      [("4K (3840x2160)",
        (catalog.filter (fun f => f.res_w == 3840 && f.res_h == 2160)).length),
       ("1440p (2560x1440)",
        (catalog.filter (fun f => f.res_w == 2560 && f.res_h == 1440)).length),
       ("1080p (1920x1080)",
        (catalog.filter (fun f => f.res_w == 1920 && f.res_h == 1080)).length),
       ("720p (1280x720)",
        (catalog.filter (fun f => f.res_w == 1280 && f.res_h == 720)).length),
       ("480p (640x480)",
        (catalog.filter (fun f => f.res_w == 640 && f.res_h == 480)).length)],
    total_feeds := catalog.length,
    unique_resolutions :=
      (distinctFirst (catalog.map (fun f => (f.res_w, f.res_h)))).length }

/-- Embeds the mutable state of a `DataLoader` instance relevant to
filtering: the `self.camera_feeds` dataframe cached by `load_all_data`. -/
structure LoaderState where
  camera_feeds : List Feed
  deriving DecidableEq, Repr

/-- State-passing form of `DataLoader.get_feeds_by_theater`: the method reads
`self.camera_feeds` and never reassigns it, so the post-state is returned
alongside the derived view. -/
def getFeedsByTheaterSt (s : LoaderState) (theater : String) :
    LoaderState × List Feed :=
  (s, get_feeds_by_theater s.camera_feeds theater)

/-- State-passing form of `DataLoader.get_feeds_by_codec`. -/
def getFeedsByCodecSt (s : LoaderState) (codec : String) :
    LoaderState × List Feed :=
  (s, get_feeds_by_codec s.camera_feeds codec)

/-- State-passing form of `DataLoader.get_feeds_by_resolution`. -/
def getFeedsByResolutionSt (s : LoaderState) (mw mh xw xh : Option Nat) :
    LoaderState × List Feed :=
  (s, get_feeds_by_resolution s.camera_feeds mw mh xw xh)

/-- State-passing form of `DataLoader.get_feeds_by_latency`. -/
def getFeedsByLatencySt (s : LoaderState) (maxL minL : Option Nat) :
    LoaderState × List Feed :=
  (s, get_feeds_by_latency s.camera_feeds maxL minL)

/-- State-passing form of `DataLoader.get_high_quality_feeds`: the method
copies the cached dataframe (`feeds = feeds.copy()`) before adding the
`quality_score` column, so the cached `self.camera_feeds` is unchanged and
the scored, sorted view is fresh. -/
def getHighQualityFeedsSt (s : LoaderState) : LoaderState × List ScoredFeed :=
  let feeds := s.camera_feeds
  let copied := feeds
  (s, (sortAscByScore (annotateQuality copied).reverse).reverse)

/-- State-passing form of `MCPTools.get_feed_by_id`. -/
def getFeedByIdSt (s : LoaderState) (fid : String) :
    LoaderState × FeedByIdResult :=
  (s, get_feed_by_id s.camera_feeds fid)

/-- State-passing form of `MCPTools.search_feeds`: every pandas mask
`feeds[...]` rebinds the local `feeds` variable to a new derived frame and
the cached catalog is never written. -/
def searchFeedsSt (s : LoaderState) (filters : List (String × FilterValue)) :
    LoaderState × Except String SearchResult :=
  (s, search_feeds s.camera_feeds filters)

/-- State-passing form of `DataLoader.get_feeds_by_model`. -/
def getFeedsByModelSt (s : LoaderState) (model_tag : String) :
    LoaderState × List Feed :=
  (s, get_feeds_by_model s.camera_feeds model_tag)

/-- State-passing form of `DataLoader.get_encrypted_feeds`. -/
def getEncryptedFeedsSt (s : LoaderState) (encrypted : Bool) :
    LoaderState × List Feed :=
  (s, get_encrypted_feeds s.camera_feeds encrypted)

/-- State-passing form of `DataLoader.get_civilian_safe_feeds`. -/
def getCivilianSafeFeedsSt (s : LoaderState) (safe : Bool) :
    LoaderState × List Feed :=
  (s, get_civilian_safe_feeds s.camera_feeds safe)

/-- State-passing form of `MCPTools.analyze_theater_distribution`: the
method reads the cached dataframe and builds a fresh counts dictionary. -/
def analyzeTheaterDistributionSt (s : LoaderState) :
    LoaderState × DistributionResult :=
  (s, analyze_theater_distribution s.camera_feeds)

/-- State-passing form of `MCPTools.analyze_codec_distribution`. -/
def analyzeCodecDistributionSt (s : LoaderState) :
    LoaderState × DistributionResult :=
  (s, analyze_codec_distribution s.camera_feeds)

/-- State-passing form of `MCPTools.analyze_resolution_distribution`. -/
def analyzeResolutionDistributionSt (s : LoaderState) :
    LoaderState × ResolutionDistributionResult :=
  (s, analyze_resolution_distribution s.camera_feeds)

/-- Guard contributed by a string-valued filter key of `search_feeds`: absent
keys constrain nothing, a present string value must satisfy the column
predicate, and a present non-string value is the raising case (never reached
on a non-raising run). -/
def guardStr (o : Option FilterValue) (pred : String → Feed → Bool) (f : Feed) :
    Bool :=
  match o with
  | none => true
  | some (FilterValue.str s) => pred s f
  | some _ => false

/-- Guard contributed by an integer-valued filter key of `search_feeds`. -/
def guardNat (o : Option FilterValue) (pred : Nat → Feed → Bool) (f : Feed) :
    Bool :=
  match o with
  | none => true
  | some (FilterValue.nat n) => pred n f
  | some _ => false

/-- Guard contributed by a boolean-valued filter key of `search_feeds`. -/
def guardBool (o : Option FilterValue) (pred : Bool → Feed → Bool) (f : Feed) :
    Bool :=
  match o with
  | none => true
  | some (FilterValue.bool b) => pred b f
  | some _ => false

/-- Conjunction of the seven guards of `search_feeds`: a record belongs to
the search result exactly when it satisfies every filter supplied in the
keyword dictionary. -/
def kwargsPred (filters : List (String × FilterValue)) (f : Feed) : Bool :=
  guardStr (filters.lookup "theater") (fun s f => f.theater == s.toUpper) f &&
  guardStr (filters.lookup "codec") (fun s f => f.codec == s.toUpper) f &&
  guardNat (filters.lookup "min_width") (fun n f => n ≤ f.res_w) f &&
  guardNat (filters.lookup "min_height") (fun n f => n ≤ f.res_h) f &&
  guardNat (filters.lookup "max_latency") (fun n f => f.lat_ms ≤ n) f &&
  guardBool (filters.lookup "encrypted") (fun b f => f.encr == b) f &&
  guardBool (filters.lookup "civilian_safe") (fun b f => f.civ_ok == b) f

/-- Concrete low-quality feed (score 0) used in concrete evaluations. -/
def feedLowA : Feed :=
  { feed_id := "FD-001", theater := "PAC", codec := "H264", res_w := 640,
    res_h := 480, lat_ms := 900, modl_tag := "Viper-VL", encr := true,
    civ_ok := true }

/-- Second concrete low-quality feed (score 0), distinct from `feedLowA`. -/
def feedLowB : Feed :=
  { feed_id := "FD-002", theater := "EUR", codec := "MPEG2", res_w := 640,
    res_h := 480, lat_ms := 900, modl_tag := "Hydra-ISR", encr := false,
    civ_ok := true }

/-- Concrete top-quality feed (score 6) used in concrete evaluations. -/
def feedTopC : Feed :=
  { feed_id := "FD-003", theater := "PAC", codec := "H265", res_w := 3840,
    res_h := 2160, lat_ms := 150, modl_tag := "Raptor-Det", encr := true,
    civ_ok := true }

/-! Helper lemmas about the embedded operations, shared by the claim
theorems below. -/

theorem insertAscByScore_perm (x : ScoredFeed) (l : List ScoredFeed) :
    (insertAscByScore x l).Perm (x :: l) := by
  induction l with
  | nil => exact List.Perm.refl _
  | cons y ys ih =>
      unfold insertAscByScore
      split
      · exact List.Perm.refl _
      · exact (ih.cons y).trans (List.Perm.swap x y ys)

theorem sortAscByScore_perm (l : List ScoredFeed) :
    (sortAscByScore l).Perm l := by
  induction l with
  | nil => exact List.Perm.refl _
  | cons x xs ih =>
      exact (insertAscByScore_perm x (sortAscByScore xs)).trans (ih.cons x)

theorem ghqf_perm (c : List Feed) :
    (get_high_quality_feeds c).Perm (annotateQuality c) :=
  (List.reverse_perm _).trans
    ((sortAscByScore_perm (annotateQuality c).reverse).trans
      (List.reverse_perm (annotateQuality c)))

theorem filter_guard {α : Type} (b : Bool) (p : α → Bool) (l : List α) :
    (if b then l.filter p else l) = l.filter (fun x => !b || p x) := by
  cases b <;> simp

theorem bind_ok {α β : Type} {e : Except String α} {g : α → Except String β}
    {b : β} (h : (e >>= g) = Except.ok b) :
    ∃ a, e = Except.ok a ∧ g a = Except.ok b := by
  cases e with
  | error m => simp [Bind.bind, Except.bind] at h
  | ok a => exact ⟨a, rfl, by simpa [Bind.bind, Except.bind] using h⟩

theorem applyStrFilter_mem {filters : List (String × FilterValue)}
    {key : String} {pred : String → Feed → Bool}
    {st st' : List Feed × List (String × FilterValue)}
    (h : applyStrFilter filters key pred st = Except.ok st') (f : Feed) :
    f ∈ st'.1 ↔ f ∈ st.1 ∧ guardStr (filters.lookup key) pred f = true := by
  cases hl : filters.lookup key with
  | none =>
      simp [applyStrFilter, hl] at h
      subst h
      simp [guardStr, hl]
  | some v =>
      cases v with
      | str s =>
          simp [applyStrFilter, hl] at h
          subst h
          simp [guardStr, hl, List.mem_filter]
      | nat n => simp [applyStrFilter, hl] at h
      | bool b => simp [applyStrFilter, hl] at h

theorem applyNatFilter_mem {filters : List (String × FilterValue)}
    {key : String} {pred : Nat → Feed → Bool}
    {st st' : List Feed × List (String × FilterValue)}
    (h : applyNatFilter filters key pred st = Except.ok st') (f : Feed) :
    f ∈ st'.1 ↔ f ∈ st.1 ∧ guardNat (filters.lookup key) pred f = true := by
  cases hl : filters.lookup key with
  | none =>
      simp [applyNatFilter, hl] at h
      subst h
      simp [guardNat, hl]
  | some v =>
      cases v with
      | nat n =>
          simp [applyNatFilter, hl] at h
          subst h
          simp [guardNat, hl, List.mem_filter]
      | str s => simp [applyNatFilter, hl] at h
      | bool b => simp [applyNatFilter, hl] at h

theorem applyBoolFilter_mem {filters : List (String × FilterValue)}
    {key : String} {pred : Bool → Feed → Bool}
    {st st' : List Feed × List (String × FilterValue)}
    (h : applyBoolFilter filters key pred st = Except.ok st') (f : Feed) :
    f ∈ st'.1 ↔ f ∈ st.1 ∧ guardBool (filters.lookup key) pred f = true := by
  cases hl : filters.lookup key with
  | none =>
      simp [applyBoolFilter, hl] at h
      subst h
      simp [guardBool, hl]
  | some v =>
      cases v with
      | bool b =>
          simp [applyBoolFilter, hl] at h
          subst h
          simp [guardBool, hl, List.mem_filter]
      | str s => simp [applyBoolFilter, hl] at h
      | nat n => simp [applyBoolFilter, hl] at h

theorem lookup_filter_supported (filters : List (String × FilterValue))
    (k : String) (hk : k ∈ supportedKeys) :
    (filters.filter (fun kv => decide (kv.1 ∈ supportedKeys))).lookup k =
      filters.lookup k := by
  induction filters with
  | nil => rfl
  | cons kv rest ih =>
      by_cases hm : kv.1 ∈ supportedKeys
      · cases hkk : k == kv.1 <;>
          simp [List.filter_cons, hm, List.lookup, hkk, ih]
      · have hne : (k == kv.1) = false := by
          rw [beq_eq_false_iff_ne]
          rintro rfl
          exact hm hk
        simp [List.filter_cons, hm, List.lookup, hne, ih]

theorem lookup_mem_keys {filters : List (String × FilterValue)} {k : String}
    {v : FilterValue} (h : filters.lookup k = some v) :
    k ∈ filters.map Prod.fst := by
  induction filters with
  | nil => cases h
  | cons kv rest ih =>
      rw [List.lookup] at h
      rw [List.map_cons]
      cases hkk : k == kv.1 with
      | true => exact List.mem_cons.mpr (Or.inl (beq_iff_eq.mp hkk))
      | false =>
          rw [hkk] at h
          exact List.mem_cons.mpr (Or.inr (ih h))

theorem applyStrFilter_applied {filters : List (String × FilterValue)}
    {key : String} {pred : String → Feed → Bool}
    {st st' : List Feed × List (String × FilterValue)}
    (h : applyStrFilter filters key pred st = Except.ok st')
    (kv : String × FilterValue) (hkv : kv ∈ st'.2) :
    kv ∈ st.2 ∨ (kv.1 = key ∧ filters.lookup key = some kv.2) := by
  cases hl : filters.lookup key with
  | none =>
      simp [applyStrFilter, hl] at h
      subst h
      exact Or.inl hkv
  | some v =>
      cases v with
      | str s =>
          simp [applyStrFilter, hl] at h
          subst h
          rcases List.mem_append.mp hkv with h' | h'
          · exact Or.inl h'
          · rcases List.mem_singleton.mp h' with rfl
            refine Or.inr ⟨rfl, ?_⟩
            simp [hl]
      | nat n => simp [applyStrFilter, hl] at h
      | bool b => simp [applyStrFilter, hl] at h

theorem applyNatFilter_applied {filters : List (String × FilterValue)}
    {key : String} {pred : Nat → Feed → Bool}
    {st st' : List Feed × List (String × FilterValue)}
    (h : applyNatFilter filters key pred st = Except.ok st')
    (kv : String × FilterValue) (hkv : kv ∈ st'.2) :
    kv ∈ st.2 ∨ (kv.1 = key ∧ filters.lookup key = some kv.2) := by
  cases hl : filters.lookup key with
  | none =>
      simp [applyNatFilter, hl] at h
      subst h
      exact Or.inl hkv
  | some v =>
      cases v with
      | nat n =>
          simp [applyNatFilter, hl] at h
          subst h
          rcases List.mem_append.mp hkv with h' | h'
          · exact Or.inl h'
          · rcases List.mem_singleton.mp h' with rfl
            refine Or.inr ⟨rfl, ?_⟩
            simp [hl]
      | str s => simp [applyNatFilter, hl] at h
      | bool b => simp [applyNatFilter, hl] at h

theorem applyBoolFilter_applied {filters : List (String × FilterValue)}
    {key : String} {pred : Bool → Feed → Bool}
    {st st' : List Feed × List (String × FilterValue)}
    (h : applyBoolFilter filters key pred st = Except.ok st')
    (kv : String × FilterValue) (hkv : kv ∈ st'.2) :
    kv ∈ st.2 ∨ (kv.1 = key ∧ filters.lookup key = some kv.2) := by
  cases hl : filters.lookup key with
  | none =>
      simp [applyBoolFilter, hl] at h
      subst h
      exact Or.inl hkv
  | some v =>
      cases v with
      | bool b =>
          simp [applyBoolFilter, hl] at h
          subst h
          rcases List.mem_append.mp hkv with h' | h'
          · exact Or.inl h'
          · rcases List.mem_singleton.mp h' with rfl
            refine Or.inr ⟨rfl, ?_⟩
            simp [hl]
      | str s => simp [applyBoolFilter, hl] at h
      | nat n => simp [applyBoolFilter, hl] at h

/-! Claim theorems. -/

/-- C2: for every record, the quality-ranking operation annotates it with an
integer quality_score equal to 3×[width ≥ 1920 and height ≥ 1080] +
2×[codec ∈ {H265, AV1, VP9}] + 1×[latency_ms ≤ 500]; the score always lies
in {0,1,2,3,4,5,6}, each boolean term contributing its full weight or zero,
and every row of the `get_high_quality_feeds` result carries exactly that
score of its record. -/
theorem c2_quality_score_formula (f : Feed) :
    qualityScore f =
      3 * (if 1920 ≤ f.res_w ∧ 1080 ≤ f.res_h then 1 else 0) +
      2 * (if f.codec ∈ ["H265", "AV1", "VP9"] then 1 else 0) +
      1 * (if f.lat_ms ≤ 500 then 1 else 0) ∧
    qualityScore f ∈ [0, 1, 2, 3, 4, 5, 6] ∧
    ∀ c : List Feed, (get_high_quality_feeds c).all
      (fun sf => sf.quality_score == qualityScore sf.feed) = true := by
  refine ⟨?_, ?_, ?_⟩
  · unfold qualityScore
    split_ifs <;> omega
  · unfold qualityScore
    split_ifs <;> simp
  · intro c
    rw [List.all_eq_true]
    intro sf hsf
    have hmem : sf ∈ annotateQuality c := (ghqf_perm c).mem_iff.mp hsf
    rcases List.mem_map.mp hmem with ⟨a, _, rfl⟩
    simp

/-- C4: for every feed_id not present in the catalog, `get_feed_by_id`
never throws (the embedding is a total function): it returns a structured
result whose found flag is falsy, carrying a hint list of at most 10
feed_id values drawn from the catalog. -/
theorem c4_feed_id_lookup_not_found (c : List Feed) (fid : String)
    (h : ∀ f ∈ c, f.feed_id ≠ fid) :
    (get_feed_by_id c fid).found = false ∧
    (get_feed_by_id c fid).available_feeds.length ≤ 10 ∧
    (get_feed_by_id c fid).available_feeds.all
      (fun x => decide (x ∈ c.map (fun f => f.feed_id))) = true := by
  have hf : c.filter (fun f => f.feed_id == fid) = [] := by
    rw [List.filter_eq_nil_iff]
    intro a ha
    simpa using h a ha
  refine ⟨?_, ?_, ?_⟩
  · simp [get_feed_by_id, hf]
  · simp only [get_feed_by_id, hf]
    have := List.length_take 10 (c.map (fun f => f.feed_id))
    omega
  · simp only [get_feed_by_id, hf]
    rw [List.all_eq_true]
    intro x hx
    simpa using List.take_subset 10 _ hx

/-- C4 witness: a concrete two-record catalog and an absent id. -/
theorem c4_witness :
    (get_feed_by_id [feedLowA, feedLowB] "FD-404").found = false ∧
    (get_feed_by_id [feedLowA, feedLowB] "FD-404").available_feeds.length ≤ 10 ∧
    (get_feed_by_id [feedLowA, feedLowB] "FD-404").available_feeds.all
      (fun x => decide
        (x ∈ ([feedLowA, feedLowB] : List Feed).map (fun f => f.feed_id))) =
      true :=
  c4_feed_id_lookup_not_found [feedLowA, feedLowB] "FD-404" (by decide)

/-- C5 (claim right, code wrong): the intent the fallback parser itself
constructs for a hint-free query — operation kind "search" with theater,
codec and quality all present as Python None — does not resolve to the full
catalog listing: evaluating the quality test calls `.lower()` on None, the
AttributeError is caught and an error result is produced.  When the quality
key is missing entirely (rather than null), the resolver does reach the
full-catalog listing as the spec describes. -/
theorem c5_null_quality_hint_errors :
    executeTools
      { intent := PyStrField.str "search", theater := PyStrField.null,
        codec := PyStrField.null, quality := PyStrField.null,
        error := PyStrField.absent } =
      ExecOutcome.toolError "AttributeError" ∧
    executeTools
      { intent := PyStrField.str "search", theater := PyStrField.absent,
        codec := PyStrField.absent, quality := PyStrField.absent,
        error := PyStrField.absent } =
      ExecOutcome.invoked [ToolCall.get_all_camera_feeds] := by
  decide

/-- C6 counterexample: a bound supplied as 0 is ignored, not applied as an
inclusive bound.  `get_feeds_by_latency` with max_latency = 0 keeps a record
whose latency is 900, and `get_feeds_by_resolution` with max_width = 0 keeps
a record whose width is 640, because the Python guards `if max_latency:` and
`if max_width:` treat 0 as falsy. -/
theorem c6_counterexample :
    get_feeds_by_latency [feedLowA] (some 0) none = [feedLowA] ∧
    ¬ feedLowA.lat_ms ≤ 0 ∧
    get_feeds_by_resolution [feedLowA] none none (some 0) none = [feedLowA] ∧
    ¬ feedLowA.res_w ≤ 0 := by
  decide

/-- C6 as amended: each range filter returns exactly the records satisfying
every supplied truthy (nonzero) inclusive bound; a bound that is omitted or
supplied as 0 is unconstrained, following Python truthiness. -/
theorem c6_range_filters_characterization (c : List Feed)
    (mw mh xw xh maxL minL : Option Nat) :
    get_feeds_by_resolution c mw mh xw xh =
      c.filter (fun f =>
        (!truthyNat mw || decide (mw.getD 0 ≤ f.res_w)) &&
        (!truthyNat mh || decide (mh.getD 0 ≤ f.res_h)) &&
        (!truthyNat xw || decide (f.res_w ≤ xw.getD 0)) &&
        (!truthyNat xh || decide (f.res_h ≤ xh.getD 0))) ∧
    get_feeds_by_latency c maxL minL =
      c.filter (fun f =>
        (!truthyNat maxL || decide (f.lat_ms ≤ maxL.getD 0)) &&
        (!truthyNat minL || decide (minL.getD 0 ≤ f.lat_ms))) := by
  constructor
  · simp only [get_feeds_by_resolution, filter_guard]
    simp only [List.filter_filter]
    apply List.filter_congr
    intro x _
    cases (!truthyNat mw || decide (mw.getD 0 ≤ x.res_w)) <;>
      cases (!truthyNat mh || decide (mh.getD 0 ≤ x.res_h)) <;>
      cases (!truthyNat xw || decide (x.res_w ≤ xw.getD 0)) <;>
      cases (!truthyNat xh || decide (x.res_h ≤ xh.getD 0)) <;>
      simp_all
  · simp only [get_feeds_by_latency, filter_guard]
    simp only [List.filter_filter]
    apply List.filter_congr
    intro x _
    cases (!truthyNat maxL || decide (x.lat_ms ≤ maxL.getD 0)) <;>
      cases (!truthyNat minL || decide (minL.getD 0 ≤ x.lat_ms)) <;>
      simp_all

/-- C8: for every intent whose operation kind is "error", `_execute_tools`
short-circuits to the error-tagged result built from `intent.get("error",
"Unknown error")` and invokes no Filter Engine tool call; the decision is
made without consulting the catalog (the embedded resolver does not even
take the catalog as an argument). -/
theorem c8_error_intent_short_circuits (i : Intent)
    (h : i.intent = PyStrField.str "error") :
    executeTools i = ExecOutcome.shortCircuit (pyGetD i.error "Unknown error") ∧
    callsOf (executeTools i) = [] := by
  have he : executeTools i =
      ExecOutcome.shortCircuit (pyGetD i.error "Unknown error") := by
    simp [executeTools, h]
  exact ⟨he, by rw [he]; rfl⟩

/-- C8 witness: a concrete upstream-failure intent. -/
theorem c8_witness :
    executeTools
      { intent := PyStrField.str "error", theater := PyStrField.absent,
        codec := PyStrField.absent, quality := PyStrField.absent,
        error := PyStrField.str "upstream failure" } =
      ExecOutcome.shortCircuit (PyStrField.str "upstream failure") ∧
    callsOf (executeTools
      { intent := PyStrField.str "error", theater := PyStrField.absent,
        codec := PyStrField.absent, quality := PyStrField.absent,
        error := PyStrField.str "upstream failure" }) = [] :=
  c8_error_intent_short_circuits _ rfl

/-- C9: every embedded Filter Engine and aggregate operation — the filters
by theater, codec, resolution range, latency range, analytics model,
encryption and civilian safety, the feed-id lookup, multi-filter search,
quality ranking (which annotates its result with quality_score), and the
theater, codec and resolution distribution analyses — leaves the loaded
catalog state unchanged and returns a view freshly derived from the
pre-call catalog. -/
theorem c9_operations_preserve_catalog (s : LoaderState) (t cd mt : String)
    (mw mh xw xh maxL minL : Option Nat) (enc safe : Bool) (fid : String)
    (filters : List (String × FilterValue)) :
    (getFeedsByTheaterSt s t).1 = s ∧
    (getFeedsByCodecSt s cd).1 = s ∧
    (getFeedsByResolutionSt s mw mh xw xh).1 = s ∧
    (getFeedsByLatencySt s maxL minL).1 = s ∧
    (getFeedsByModelSt s mt).1 = s ∧
    (getEncryptedFeedsSt s enc).1 = s ∧
    (getCivilianSafeFeedsSt s safe).1 = s ∧
    (getHighQualityFeedsSt s).1 = s ∧
    (getFeedByIdSt s fid).1 = s ∧
    (searchFeedsSt s filters).1 = s ∧
    (analyzeTheaterDistributionSt s).1 = s ∧
    (analyzeCodecDistributionSt s).1 = s ∧
    (analyzeResolutionDistributionSt s).1 = s ∧
    (getHighQualityFeedsSt s).2 = get_high_quality_feeds s.camera_feeds ∧
    (searchFeedsSt s filters).2 = search_feeds s.camera_feeds filters ∧
    (analyzeTheaterDistributionSt s).2 =
      analyze_theater_distribution s.camera_feeds ∧
    (analyzeCodecDistributionSt s).2 =
      analyze_codec_distribution s.camera_feeds ∧
    (analyzeResolutionDistributionSt s).2 =
      analyze_resolution_distribution s.camera_feeds :=
  ⟨rfl, rfl, rfl, rfl, rfl, rfl, rfl, rfl, rfl, rfl, rfl, rfl, rfl, rfl, rfl,
   rfl, rfl, rfl⟩

/-- C1 counterexample: an intent whose operation kind is "get_info" (one of
the four kinds the parser prompt allows), with both theater and codec hints
set, is not "error", yet `_execute_tools` selects no Filter Engine call at
all — in particular not the by-theater call the claim requires. -/
theorem c1_counterexample :
    executeTools
      { intent := PyStrField.str "get_info", theater := PyStrField.str "EUR",
        codec := PyStrField.str "H265", quality := PyStrField.absent,
        error := PyStrField.absent } = ExecOutcome.invoked [] ∧
    executeTools
      { intent := PyStrField.str "get_info", theater := PyStrField.str "EUR",
        codec := PyStrField.str "H265", quality := PyStrField.absent,
        error := PyStrField.absent } ≠
      ExecOutcome.invoked [ToolCall.filter_by_theater "EUR"] := by
  decide

/-- C1 as amended: for every intent whose operation kind is filter, search
or analyze, a truthy theater hint makes `_execute_tools` select exactly one
primary call, the by-theater filter with the intent's theater argument
(never by-codec); with no truthy theater hint a truthy codec hint selects
exactly the by-codec call (codec over quality); and for every intent of any
other non-"error" operation kind no Filter Engine call is selected. -/
theorem c1_theater_over_codec_priority (i : Intent)
    (hk : i.intent = PyStrField.str "filter" ∨
      i.intent = PyStrField.str "search" ∨
      i.intent = PyStrField.str "analyze") :
    (truthyStr i.theater = true →
      executeTools i =
        ExecOutcome.invoked [ToolCall.filter_by_theater (strVal i.theater)]) ∧
    (truthyStr i.theater = false → truthyStr i.codec = true →
      executeTools i =
        ExecOutcome.invoked [ToolCall.filter_by_codec (strVal i.codec)]) ∧
    ∀ j : Intent, j.intent ≠ PyStrField.str "error" →
      j.intent ≠ PyStrField.str "filter" →
      j.intent ≠ PyStrField.str "search" →
      j.intent ≠ PyStrField.str "analyze" →
      executeTools j = ExecOutcome.invoked [] := by
  refine ⟨?_, ?_, ?_⟩
  · intro ht
    rcases hk with h | h | h <;> simp [executeTools, h, ht]
  · intro ht hc
    rcases hk with h | h | h <;> simp [executeTools, h, ht, hc]
  · intro j h0 h1 h2 h3
    simp [executeTools, h0, h1, h2, h3]

/-- C1 witness: a concrete filter intent carrying both hints resolves to the
by-theater call. -/
theorem c1_witness :
    executeTools
      { intent := PyStrField.str "filter", theater := PyStrField.str "EUR",
        codec := PyStrField.str "H265", quality := PyStrField.null,
        error := PyStrField.absent } =
      ExecOutcome.invoked [ToolCall.filter_by_theater "EUR"] :=
  (c1_theater_over_codec_priority _ (Or.inl rfl)).1 rfl

/-- C7: on every non-raising run of `search_feeds` a record is included
exactly when it satisfies all supplied filters (every supplied filter acts
as a conjunct), and for every catalog the search with
filters {theater = "PAC", codec = "H265"} returns exactly the intersection
of the by-theater filter with "PAC" and the by-codec filter with "H265". -/
theorem c7_multi_filter_conjunction (c : List Feed)
    (filters : List (String × FilterValue)) (r : SearchResult)
    (h : search_feeds c filters = Except.ok r) :
    (∀ f : Feed, f ∈ r.feeds ↔ f ∈ c ∧ kwargsPred filters f = true) ∧
    (∀ f : Feed,
      f ∈ resultFeeds (search_feeds c
        [("theater", FilterValue.str "PAC"),
         ("codec", FilterValue.str "H265")]) ↔
      f ∈ get_feeds_by_theater c "PAC" ∧ f ∈ get_feeds_by_codec c "H265") := by
  constructor
  · unfold search_feeds at h
    obtain ⟨st1, e1, h⟩ := bind_ok h
    obtain ⟨st2, e2, h⟩ := bind_ok h
    obtain ⟨st3, e3, h⟩ := bind_ok h
    obtain ⟨st4, e4, h⟩ := bind_ok h
    obtain ⟨st5, e5, h⟩ := bind_ok h
    obtain ⟨st6, e6, h⟩ := bind_ok h
    obtain ⟨st7, e7, h⟩ := bind_ok h
    have hr : r.feeds = st7.1 := by
      cases h
      rfl
    intro f
    rw [hr, applyBoolFilter_mem e7 f, applyBoolFilter_mem e6 f,
      applyNatFilter_mem e5 f, applyNatFilter_mem e4 f,
      applyNatFilter_mem e3 f, applyStrFilter_mem e2 f,
      applyStrFilter_mem e1 f]
    simp only [kwargsPred, Bool.and_eq_true]
    tauto
  · intro f
    have hr : resultFeeds (search_feeds c
        [("theater", FilterValue.str "PAC"),
         ("codec", FilterValue.str "H265")]) =
        get_feeds_by_codec (get_feeds_by_theater c "PAC") "H265" := rfl
    rw [hr]
    unfold get_feeds_by_codec get_feeds_by_theater
    simp only [List.mem_filter]
    tauto

/-- C7 witness: a concrete one-record catalog with a concrete min_width
filter, instantiating both parts of the conjunction theorem. -/
theorem c7_witness :
    (feedTopC ∈
      ({ feeds := [feedTopC],
         applied_filters := [("min_width", FilterValue.nat 1000)],
         count := 1 } : SearchResult).feeds ↔
      feedTopC ∈ ([feedTopC] : List Feed) ∧
      kwargsPred [("min_width", FilterValue.nat 1000)] feedTopC = true) ∧
    (feedTopC ∈ resultFeeds (search_feeds [feedTopC]
        [("theater", FilterValue.str "PAC"),
         ("codec", FilterValue.str "H265")]) ↔
      feedTopC ∈ get_feeds_by_theater [feedTopC] "PAC" ∧
      feedTopC ∈ get_feeds_by_codec [feedTopC] "H265") :=
  ⟨(c7_multi_filter_conjunction [feedTopC]
      [("min_width", FilterValue.nat 1000)]
      { feeds := [feedTopC],
        applied_filters := [("min_width", FilterValue.nat 1000)],
        count := 1 } rfl).1 feedTopC,
   (c7_multi_filter_conjunction [feedTopC]
      [("min_width", FilterValue.nat 1000)]
      { feeds := [feedTopC],
        applied_filters := [("min_width", FilterValue.nat 1000)],
        count := 1 } rfl).2 feedTopC⟩

/-- C10: `search_feeds` consults only the seven supported filter names, so
any unknown key in the mapping is silently ignored: the whole result equals
the result of the same search with every unknown key removed, and every
entry echoed in applied_filters has a supported name that was supplied in
the mapping. -/
theorem c10_unknown_keys_ignored (c : List Feed)
    (filters : List (String × FilterValue)) :
    search_feeds c filters =
      search_feeds c
        (filters.filter (fun kv => decide (kv.1 ∈ supportedKeys))) ∧
    (resultApplied (search_feeds c filters)).all
      (fun kv => decide (kv.1 ∈ supportedKeys) &&
        decide (kv.1 ∈ filters.map Prod.fst)) = true := by
  constructor
  · have h1 := lookup_filter_supported filters "theater" (by decide)
    have h2 := lookup_filter_supported filters "codec" (by decide)
    have h3 := lookup_filter_supported filters "min_width" (by decide)
    have h4 := lookup_filter_supported filters "min_height" (by decide)
    have h5 := lookup_filter_supported filters "max_latency" (by decide)
    have h6 := lookup_filter_supported filters "encrypted" (by decide)
    have h7 := lookup_filter_supported filters "civilian_safe" (by decide)
    simp only [search_feeds, applyStrFilter, applyNatFilter, applyBoolFilter,
      h1, h2, h3, h4, h5, h6, h7]
  · cases hres : search_feeds c filters with
    | error m => simp [resultApplied]
    | ok r =>
        simp only [resultApplied]
        rw [List.all_eq_true]
        intro kv hkv
        unfold search_feeds at hres
        obtain ⟨st1, e1, hres⟩ := bind_ok hres
        obtain ⟨st2, e2, hres⟩ := bind_ok hres
        obtain ⟨st3, e3, hres⟩ := bind_ok hres
        obtain ⟨st4, e4, hres⟩ := bind_ok hres
        obtain ⟨st5, e5, hres⟩ := bind_ok hres
        obtain ⟨st6, e6, hres⟩ := bind_ok hres
        obtain ⟨st7, e7, hres⟩ := bind_ok hres
        have hap : r.applied_filters = st7.2 := by
          cases hres
          rfl
        rw [hap] at hkv
        have keyfact : kv ∈ ([] : List (String × FilterValue)) ∨
            (kv.1 ∈ supportedKeys ∧ ∃ v, filters.lookup kv.1 = some v) := by
          rcases applyBoolFilter_applied e7 kv hkv with hkv | ⟨hk, hl⟩
          · rcases applyBoolFilter_applied e6 kv hkv with hkv | ⟨hk, hl⟩
            · rcases applyNatFilter_applied e5 kv hkv with hkv | ⟨hk, hl⟩
              · rcases applyNatFilter_applied e4 kv hkv with hkv | ⟨hk, hl⟩
                · rcases applyNatFilter_applied e3 kv hkv with hkv | ⟨hk, hl⟩
                  · rcases applyStrFilter_applied e2 kv hkv with hkv | ⟨hk, hl⟩
                    · rcases applyStrFilter_applied e1 kv hkv with hkv | ⟨hk, hl⟩
                      · exact Or.inl hkv
                      · exact Or.inr ⟨by rw [hk]; decide, ⟨kv.2, hk ▸ hl⟩⟩
                    · exact Or.inr ⟨by rw [hk]; decide, ⟨kv.2, hk ▸ hl⟩⟩
                  · exact Or.inr ⟨by rw [hk]; decide, ⟨kv.2, hk ▸ hl⟩⟩
                · exact Or.inr ⟨by rw [hk]; decide, ⟨kv.2, hk ▸ hl⟩⟩
              · exact Or.inr ⟨by rw [hk]; decide, ⟨kv.2, hk ▸ hl⟩⟩
            · exact Or.inr ⟨by rw [hk]; decide, ⟨kv.2, hk ▸ hl⟩⟩
          · exact Or.inr ⟨by rw [hk]; decide, ⟨kv.2, hk ▸ hl⟩⟩
        rcases keyfact with hemp | ⟨hsup, v, hl⟩
        · cases hemp
        · simp [hsup, lookup_mem_keys hl]

end CameraFeeds
